import Mathlib

/-!
Shallow embedding of the everinit-crm data-model logic:
soft-delete mixin (src/apps/common/models.py), the reserved-role guard
(src/apps/accounts/models.py, signals.py, constants.py) and the
inventory validation (src/apps/stockroom/models.py).

Databases are lists of rows; time is an abstract Nat tick standing for
timezone.now(); Python exceptions surface as an `Except PyError` result.
-/

namespace EverInit

/-- The exception kinds the embedded code can raise: Django ValidationError,
Model.DoesNotExist / MultipleObjectsReturned from `get`, FieldError from a
queryset keyword that names no model field, and Python AttributeError. -/
inductive PyError where
  | validationError (msg : String)
  | doesNotExist
  | multipleObjectsReturned
  | fieldError (keyword : String)
  | attributeError (attrName : String)
deriving Repr, DecidableEq

/-! ## Soft-delete mixin (src/apps/common/models.py)

`SoftDeleteModel` declares a nullable DateTime field `deleted` (plus the
`uuid` primary key inherited from BaseUUIDModel).  A row is a uuid together
with the optional deletion timestamp. -/

structure SDRow where
  uuid : Nat
  deleted : Option Nat
deriving Repr, DecidableEq

/-- `filter(<field>__isnull=True)` on a SoftDeleteModel queryset.  The model
fields visible to the query compiler are `uuid` (the primary key, never null)
and `deleted`; any other keyword raises FieldError, as Django does when the
lookup cannot be resolved into a field. -/
def sd_filter_isnull_true (field : String) (db : List SDRow) :
    Except PyError (List SDRow) :=
  if field = "uuid" then .ok (db.filter fun _ => false)
  else if field = "deleted" then .ok (db.filter fun r => r.deleted = none)
  else .error (.fieldError field)

/-- `SoftDeleteManager.get_queryset`: the source filters on
`delete_at__isnull=True` (the field is spelled `delete_at` there, while the
model field is named `deleted`). -/
def SoftDeleteManager.get_queryset (db : List SDRow) :
    Except PyError (List SDRow) :=
  sd_filter_isnull_true "delete_at" db

/-- The plain secondary manager `objects = models.Manager()`: all rows,
including logically deleted ones. -/
def sd_objects_all (db : List SDRow) : List SDRow := db

/-- `Model.save()` for a plain soft-delete row: UPDATE the row with this
primary key when one exists, INSERT otherwise. -/
def SDRow.save (db : List SDRow) (self : SDRow) : List SDRow :=
  if db.any fun r => r.uuid = self.uuid then
    db.map fun r => if r.uuid = self.uuid then self else r
  else db ++ [self]

/-- `SoftDeleteModel.mark_deleted`: `if not self.deleted:` set the timestamp
to now and save.  Returns the updated database and the updated instance. -/
def SoftDeleteModel.mark_deleted (now : Nat) (db : List SDRow) (self : SDRow) :
    List SDRow × SDRow :=
  if self.deleted = none then
    let s : SDRow := { self with deleted := some now }
    (SDRow.save db s, s)
  else (db, self)

/-- `SoftDeleteModel.restore`: `if self.deleted:` clear the timestamp and
save. -/
def SoftDeleteModel.restore (db : List SDRow) (self : SDRow) :
    List SDRow × SDRow :=
  if self.deleted ≠ none then
    let s : SDRow := { self with deleted := none }
    (SDRow.save db s, s)
  else (db, self)

/-- `SoftDeleteModel.permanently_delete`: physical removal of the row
(via `super().delete()`), atomic. -/
def SoftDeleteModel.permanently_delete (db : List SDRow) (self : SDRow) :
    List SDRow :=
  db.filter fun r => r.uuid ≠ self.uuid

/-- `SoftDeleteModel.delete(hard=False)`: dispatches to permanent removal
when the hard flag is set, otherwise to the soft mark. -/
def SoftDeleteModel.delete (now : Nat) (db : List SDRow) (self : SDRow)
    (hard : Bool) : List SDRow × SDRow :=
  if hard then (SoftDeleteModel.permanently_delete db self, self)
  else SoftDeleteModel.mark_deleted now db self

/-! ## Reserved roles (src/apps/accounts/constants.py) -/

/-- `RESERVED_ROLES`: the dict of reserved role codes to display names. -/
def RESERVED_ROLES : List (String × String) :=
  [("ROLE_WAREHOUSE_MANAGER", "Warehouse Manager"),
   ("ROLE_SELLER", "Seller"),
   ("ROLE_CUSTOMER", "Customer")]

/-- `code in RESERVED_ROLES` tests dict-key membership. -/
def reservedCodes : List String := RESERVED_ROLES.map Prod.fst

/-! ## Role (src/apps/accounts/models.py)

Role extends ComprehensiveModel, so a row carries the uuid primary key and
the soft-delete timestamp besides code, name and description.  (The audit
timestamps and active flag play no part in the claims and are omitted.) -/

structure RoleR where
  pk : Nat
  code : String
  name : String
  description : Option String
  deleted : Option Nat
deriving Repr, DecidableEq

/-- `Role.is_reserved`: `self.code in RESERVED_ROLES`. -/
def Role.is_reserved (self : RoleR) : Bool :=
  reservedCodes.contains self.code

/-- `Role.clean`: raise ValidationError when the code is reserved. -/
def Role.clean (self : RoleR) : Except PyError Unit :=
  if Role.is_reserved self then
    .error (.validationError
      ("The code " ++ self.code ++ " is reserved and cannot be used."))
  else .ok ()

/-- `Role.objects.get(pk=...)`: DoesNotExist on no match,
MultipleObjectsReturned on more than one.  `objects` is the plain manager,
so soft-deleted rows are seen too. -/
def Role.objects_get_pk (db : List RoleR) (pk : Nat) : Except PyError RoleR :=
  match db.filter fun r => r.pk = pk with
  | [] => .error .doesNotExist
  | [r] => .ok r
  | _ => .error .multipleObjectsReturned

/-- `Role._check_reserved_code_change`: re-read the persisted row by pk; if
its code differs from the incoming one and the persisted code is reserved,
raise ValidationError.  `except Role.DoesNotExist: pass`. -/
def Role.check_reserved_code_change (db : List RoleR) (self : RoleR) :
    Except PyError Unit :=
  match Role.objects_get_pk db self.pk with
  | .ok original =>
    if original.code ≠ self.code ∧ original.code ∈ reservedCodes then
      .error (.validationError
        ("The code " ++ self.code ++ " is reserved and cannot be changed."))
    else .ok ()
  | .error .doesNotExist => .ok ()
  | .error e => .error e

/-- `Model.save()` row write for Role: UPDATE on an existing pk, INSERT
otherwise. -/
def roleUpsert (db : List RoleR) (self : RoleR) : List RoleR :=
  if db.any fun r => r.pk = self.pk then
    db.map fun r => if r.pk = self.pk then self else r
  else db ++ [self]

/-- `Role.save`: run the reserved-code-change check, then persist. -/
def Role.save (db : List RoleR) (self : RoleR) : Except PyError (List RoleR) := do
  Role.check_reserved_code_change db self
  .ok (roleUpsert db self)

/-- `Role._check_reserved_deletion`: ValidationError when the code is
reserved. -/
def Role.check_reserved_deletion (self : RoleR) : Except PyError Unit :=
  if Role.is_reserved self then
    .error (.validationError
      ("The role with code " ++ self.code ++ " is reserved and cannot be deleted."))
  else .ok ()

/-- `prevent_deletion_of_reserved_role` (signals.py): the pre_delete receiver,
raising ValidationError for a reserved instance. -/
def prevent_deletion_of_reserved_role (inst : RoleR) : Except PyError Unit :=
  if Role.is_reserved inst then
    .error (.validationError
      ("The role with code " ++ inst.code ++ " is reserved and cannot be deleted."))
  else .ok ()

/-- `SoftDeleteModel.mark_deleted` as inherited by Role: `self.save()`
dispatches to `Role.save`. -/
def Role.mark_deleted (now : Nat) (db : List RoleR) (self : RoleR) :
    Except PyError (List RoleR) :=
  if self.deleted = none then Role.save db { self with deleted := some now }
  else .ok db

/-- `SoftDeleteModel.permanently_delete` for Role: `super().delete()` fires
the pre_delete signal (prevent_deletion_of_reserved_role is connected with
sender=Role) before the row is removed. -/
def Role.permanently_delete (db : List RoleR) (self : RoleR) :
    Except PyError (List RoleR) := do
  prevent_deletion_of_reserved_role self
  .ok (db.filter fun r => r.pk ≠ self.pk)

/-- `SoftDeleteModel.delete(hard)` as inherited by Role. -/
def Role.softdelete_dispatch (now : Nat) (db : List RoleR) (self : RoleR)
    (hard : Bool) : Except PyError (List RoleR) :=
  if hard then Role.permanently_delete db self
  else Role.mark_deleted now db self

/-- `Role.delete`: run the reserved-deletion check, then `super().delete()`. -/
def Role.delete (now : Nat) (db : List RoleR) (self : RoleR) (hard : Bool) :
    Except PyError (List RoleR) := do
  Role.check_reserved_deletion self
  Role.softdelete_dispatch now db self hard

/-! ## Post-migration seeding (src/apps/accounts/signals.py) -/

/-- A fresh primary key for a created row, standing for a uuid4 value that
collides with no existing row. -/
def freshPk (db : List RoleR) : Nat :=
  (db.map fun r => r.pk).foldr max 0 + 1

/-- `Role.objects.get(code=...)`. -/
def Role.objects_get_code (db : List RoleR) (code : String) :
    Except PyError RoleR :=
  match db.filter fun r => r.code = code with
  | [] => .error .doesNotExist
  | [r] => .ok r
  | _ => .error .multipleObjectsReturned

/-- `Role.objects.get_or_create(code=..., defaults=(name))`: get by code;
on DoesNotExist, create the row (create calls `Role.save`, and does not call
`clean`). -/
def get_or_create_role (db : List RoleR) (code roleName : String) :
    Except PyError (List RoleR) :=
  match Role.objects_get_code db code with
  | .ok _ => .ok db
  | .error .doesNotExist =>
    Role.save db
      { pk := freshPk db, code := code, name := roleName,
        description := none, deleted := none }
  | .error e => .error e

/-- `ensure_roles_exist` (post_migrate receiver, with the app opted in via
`manage_reserved_roles = True`): get-or-create one Role per reserved
(code, name) pair. -/
def ensure_roles_exist (db : List RoleR) : Except PyError (List RoleR) :=
  RESERVED_ROLES.foldlM (fun acc p => get_or_create_role acc p.1 p.2) db

/-- Running the seeding routine n times in sequence. -/
def ensureIter : Nat → List RoleR → Except PyError (List RoleR)
  | 0, db => .ok db
  | n + 1, db => (ensure_roles_exist db).bind (ensureIter n)

/-! ## Inventory (src/apps/stockroom/models.py)

`quantity` is a DecimalField(max_digits=10, decimal_places=2); a value is
embedded as its number of hundredths, so `Decimal.is_integer` is
divisibility by 100.  The product foreign key is embedded in the row with
the one field `clean` reads, `is_divisible`. -/

structure ProductR where
  pk : Nat
  is_divisible : Bool
deriving Repr, DecidableEq

structure InventoryR where
  uuid : Nat
  warehouse : Nat
  product : ProductR
  attributes : Nat
  quantityH : Int
deriving Repr, DecidableEq

/-- `Decimal.is_integer` on a quantity stored in hundredths. -/
def decimal_is_integer (h : Int) : Bool := h % 100 = 0

/-- Python attribute access `self.<attrName>` for the identifier attributes
of an Inventory instance.  The concrete fields of the model are uuid (the
primary key, from BaseUUIDModel), created, updated, is_active, deleted,
warehouse, product, attributes and quantity; no field is named `id`, so
`self.id` raises AttributeError (a Django model only has an `id` attribute
when its primary key is the auto-created `id` field). -/
def InventoryR.attr (self : InventoryR) (attrName : String) :
    Except PyError Nat :=
  if attrName = "uuid" then .ok self.uuid
  else .error (.attributeError attrName)

/-- `.exclude(<field>=v)` on an Inventory queryset, for a pk-valued keyword:
`uuid` is the only identifier field; any other keyword raises FieldError. -/
def inventory_exclude_eq (field : String) (v : Nat) (rows : List InventoryR) :
    Except PyError (List InventoryR) :=
  if field = "uuid" then .ok (rows.filter fun r => r.uuid ≠ v)
  else .error (.fieldError field)

/-- `Inventory.clean`: reject a fractional quantity for a non-divisible
product, then reject a duplicate (warehouse, product, attributes) triple via
`Inventory.objects.filter(...).exclude(id=self.id).exists()` — the source
reads `self.id` and excludes on the keyword `id`. -/
def Inventory.clean (db : List InventoryR) (self : InventoryR) :
    Except PyError Unit := do
  if ¬ self.product.is_divisible ∧ ¬ decimal_is_integer self.quantityH then
    throw (.validationError "This product does not support decimal quantities.")
  let selfId ← self.attr "id"
  let others ← inventory_exclude_eq "id" selfId
    (db.filter fun r =>
      r.warehouse = self.warehouse ∧ r.product.pk = self.product.pk ∧
      r.attributes = self.attributes)
  if ¬ others.isEmpty then
    throw (.validationError
      "An inventory with these attributes already exists in the warehouse.")

/-! ## Theorems -/

/-- C1: the claim says the default manager (active_objects) returns exactly the
rows whose deletion timestamp is unset.  In the code the manager filters on
the keyword `delete_at`, but the model field is named `deleted`, so every
retrieval through active_objects raises FieldError instead of returning the
live rows; the secondary manager does return all rows, soft-deleted included. -/
theorem c1_active_objects_raises_field_error :
    SoftDeleteManager.get_queryset [⟨0, none⟩, ⟨1, some 3⟩]
        = .error (.fieldError "delete_at")
    ∧ sd_objects_all [⟨0, none⟩, ⟨1, some 3⟩] = [⟨0, none⟩, ⟨1, some 3⟩]
    ∧ (∀ db : List SDRow,
        SoftDeleteManager.get_queryset db = .error (.fieldError "delete_at"))
    ∧ sd_filter_isnull_true "deleted" [⟨0, none⟩, ⟨1, some 3⟩] = .ok [⟨0, none⟩] :=
  ⟨rfl, rfl, fun _ => rfl, rfl⟩

/-- C5: Role.clean succeeds exactly when the code is not reserved, and raises
a ValidationError whenever the code is in the reserved set. -/
theorem c5_role_clean_iff_reserved (self : RoleR) :
    (Role.clean self = .ok () ↔ self.code ∉ reservedCodes)
    ∧ (∀ _ : self.code ∈ reservedCodes,
        Role.clean self = .error (.validationError
          ("The code " ++ self.code ++ " is reserved and cannot be used."))) := by
  constructor
  · unfold Role.clean Role.is_reserved
    by_cases h : self.code ∈ reservedCodes
    · simp [List.elem_iff.mpr h, h]
    · simp [h, fun hc => h (List.elem_iff.mp hc)]
  · intro h
    unfold Role.clean Role.is_reserved
    simp [List.elem_iff.mpr h]
    exact h

/-- C7: the claim says clean fails on a fractional quantity for a
non-divisible product and succeeds on a whole one.  The fractional case does
raise the ValidationError, but the whole-number case (and every run that
reaches the uniqueness check) raises AttributeError, because the source reads
`self.id` while the Inventory primary key is `uuid`. -/
theorem c7_divisibility_check_then_attribute_error :
    Inventory.clean [] ⟨1, 1, ⟨1, false⟩, 1, 250⟩
        = .error (.validationError "This product does not support decimal quantities.")
    ∧ Inventory.clean [] ⟨1, 1, ⟨1, false⟩, 1, 200⟩ = .error (.attributeError "id")
    ∧ Inventory.clean [] ⟨1, 1, ⟨1, true⟩, 1, 250⟩ = .error (.attributeError "id") :=
  ⟨rfl, rfl, rfl⟩

/-- C3: the claim says clean raises a ValidationError exactly on a duplicate
(warehouse, product, attributes) triple and passes an in-place update.  In
the code every run that passes the quantity check raises AttributeError at
`self.id` (the primary key is `uuid`; no `id` attribute exists), so neither
the duplicate rejection nor the in-place success ever happens. -/
theorem c3_clean_raises_attribute_error :
    Inventory.clean [⟨1, 1, ⟨1, true⟩, 1, 100⟩] ⟨1, 1, ⟨1, true⟩, 1, 100⟩
        = .error (.attributeError "id")
    ∧ Inventory.clean [⟨2, 1, ⟨1, true⟩, 1, 100⟩] ⟨1, 1, ⟨1, true⟩, 1, 100⟩
        = .error (.attributeError "id")
    ∧ (∀ (db : List InventoryR) (self : InventoryR),
        self.product.is_divisible = true →
        Inventory.clean db self = .error (.attributeError "id")) := by
  refine ⟨rfl, rfl, fun db self h => ?_⟩
  unfold Inventory.clean InventoryR.attr
  simp [h]
  rfl

/-- C8: the claim says mark_deleted then restore returns the record to
default-queryset visibility, and that a second mark_deleted keeps the first
timestamp.  Idempotence holds, and restore does clear the timestamp, but the
record is never visible through the default manager: every active_objects
query raises FieldError (the manager filters on `delete_at`, the field is
`deleted`). -/
theorem c8_mark_restore_and_idempotence :
    (SoftDeleteModel.restore
        (SoftDeleteModel.mark_deleted 5 [⟨0, none⟩] ⟨0, none⟩).1
        (SoftDeleteModel.mark_deleted 5 [⟨0, none⟩] ⟨0, none⟩).2
      = ([⟨0, none⟩], ⟨0, none⟩))
    ∧ SoftDeleteManager.get_queryset [⟨0, none⟩] = .error (.fieldError "delete_at")
    ∧ (∀ (now1 now2 : Nat) (db : List SDRow) (self : SDRow),
        SoftDeleteModel.mark_deleted now2
            (SoftDeleteModel.mark_deleted now1 db self).1
            (SoftDeleteModel.mark_deleted now1 db self).2
          = SoftDeleteModel.mark_deleted now1 db self) := by
  refine ⟨rfl, rfl, fun now1 now2 db self => ?_⟩
  unfold SoftDeleteModel.mark_deleted
  cases h : self.deleted <;> simp [h]

/-- C2: for a persisted Role whose stored code is reserved, save with a
different code raises a ValidationError (nothing is persisted), while save
with the code unchanged persists the update. -/
theorem c2_reserved_code_change_guard (db : List RoleR) (self orig : RoleR)
    (hmem : db.filter (fun r => r.pk = self.pk) = [orig])
    (hres : orig.code ∈ reservedCodes) :
    (self.code ≠ orig.code →
      Role.save db self = .error (.validationError
        ("The code " ++ self.code ++ " is reserved and cannot be changed.")))
    ∧ (self.code = orig.code → Role.save db self = .ok (roleUpsert db self)) := by
  have hget : Role.objects_get_pk db self.pk = .ok orig := by
    unfold Role.objects_get_pk
    rw [hmem]
  constructor
  · intro hne
    have hchk : Role.check_reserved_code_change db self
        = .error (.validationError
          ("The code " ++ self.code ++ " is reserved and cannot be changed.")) := by
      unfold Role.check_reserved_code_change
      rw [hget]
      simp [Ne.symm hne, hres]
    unfold Role.save
    rw [hchk]
    rfl
  · intro heq
    have hchk : Role.check_reserved_code_change db self = .ok () := by
      unfold Role.check_reserved_code_change
      rw [hget]
      simp [heq]
    unfold Role.save
    rw [hchk]
    rfl

/-- Witness for C2: a Role persisted with the reserved code ROLE_SELLER
cannot have its code changed to "other", while a name/description-only
update saves. -/
theorem c2_reserved_code_change_guard_witness :
    Role.save [⟨1, "ROLE_SELLER", "Seller", none, none⟩]
        ⟨1, "other", "Seller", none, none⟩
      = .error (.validationError "The code other is reserved and cannot be changed.")
    ∧ Role.save [⟨1, "ROLE_SELLER", "Seller", none, none⟩]
        ⟨1, "ROLE_SELLER", "Seller 2", some "newer", none⟩
      = .ok (roleUpsert [⟨1, "ROLE_SELLER", "Seller", none, none⟩]
          ⟨1, "ROLE_SELLER", "Seller 2", some "newer", none⟩) :=
  ⟨(c2_reserved_code_change_guard
      [⟨1, "ROLE_SELLER", "Seller", none, none⟩]
      ⟨1, "other", "Seller", none, none⟩
      ⟨1, "ROLE_SELLER", "Seller", none, none⟩ (by decide) (by decide)).1 (by decide),
   (c2_reserved_code_change_guard
      [⟨1, "ROLE_SELLER", "Seller", none, none⟩]
      ⟨1, "ROLE_SELLER", "Seller 2", some "newer", none⟩
      ⟨1, "ROLE_SELLER", "Seller", none, none⟩ (by decide) (by decide)).2 (by decide)⟩

/-- C9: when no persisted Role carries the instance's primary key, the
reserved-code-change lookup is a no-op (DoesNotExist is swallowed) and save
inserts the row — in particular a brand-new Role with a reserved code is
persisted without error. -/
theorem c9_missing_original_lookup_noop (db : List RoleR) (self : RoleR)
    (hnew : db.filter (fun r => r.pk = self.pk) = []) :
    Role.check_reserved_code_change db self = .ok ()
    ∧ Role.save db self = .ok (db ++ [self]) := by
  have hget : Role.objects_get_pk db self.pk = .error .doesNotExist := by
    unfold Role.objects_get_pk
    rw [hnew]
  have hchk : Role.check_reserved_code_change db self = .ok () := by
    unfold Role.check_reserved_code_change
    rw [hget]
  have hnone : ∀ r ∈ db, ¬ (r.pk = self.pk) := by
    intro r hr
    have := List.filter_eq_nil_iff.mp hnew r hr
    simpa using this
  have hup : roleUpsert db self = db ++ [self] := by
    unfold roleUpsert
    have hany : (db.any fun r => r.pk = self.pk) = false := by
      simp only [List.any_eq_false]
      intro r hr
      simpa using hnone r hr
    rw [hany]
    simp
  refine ⟨hchk, ?_⟩
  unfold Role.save
  rw [hchk, hup]
  rfl

/-- Witness for C9: a brand-new Role with the reserved code
ROLE_WAREHOUSE_MANAGER saves into an empty table without error. -/
theorem c9_missing_original_lookup_noop_witness :
    Role.check_reserved_code_change [] ⟨1, "ROLE_WAREHOUSE_MANAGER", "Warehouse Manager", none, none⟩ = .ok ()
    ∧ Role.save [] ⟨1, "ROLE_WAREHOUSE_MANAGER", "Warehouse Manager", none, none⟩
      = .ok ([] ++ [⟨1, "ROLE_WAREHOUSE_MANAGER", "Warehouse Manager", none, none⟩]) :=
  c9_missing_original_lookup_noop []
    ⟨1, "ROLE_WAREHOUSE_MANAGER", "Warehouse Manager", none, none⟩ (by decide)

/-- C4: deleting a Role whose code is reserved raises a ValidationError
through every path — Role.delete (soft or hard), the pre_delete receiver
itself, and the physical deletion that fires the receiver — and no database
state is produced. -/
theorem c4_reserved_deletion_blocked (now : Nat) (db : List RoleR)
    (self : RoleR) (hard : Bool) (h : self.code ∈ reservedCodes) :
    Role.delete now db self hard
        = .error (.validationError
          ("The role with code " ++ self.code ++ " is reserved and cannot be deleted."))
    ∧ prevent_deletion_of_reserved_role self
        = .error (.validationError
          ("The role with code " ++ self.code ++ " is reserved and cannot be deleted."))
    ∧ Role.permanently_delete db self
        = .error (.validationError
          ("The role with code " ++ self.code ++ " is reserved and cannot be deleted.")) := by
  have hchk : Role.check_reserved_deletion self
      = .error (.validationError
        ("The role with code " ++ self.code ++ " is reserved and cannot be deleted.")) := by
    unfold Role.check_reserved_deletion Role.is_reserved
    simp [List.elem_iff.mpr h]
    exact h
  have hprev : prevent_deletion_of_reserved_role self
      = .error (.validationError
        ("The role with code " ++ self.code ++ " is reserved and cannot be deleted.")) := by
    unfold prevent_deletion_of_reserved_role Role.is_reserved
    simp [List.elem_iff.mpr h]
    exact h
  refine ⟨?_, hprev, ?_⟩
  · unfold Role.delete
    rw [hchk]
    rfl
  · unfold Role.permanently_delete
    rw [hprev]
    rfl

/-- Witness for C4: the reserved role ROLE_CUSTOMER cannot be deleted, by
any of the three paths. -/
theorem c4_reserved_deletion_blocked_witness :
    Role.delete 0 [⟨1, "ROLE_CUSTOMER", "Customer", none, none⟩]
        ⟨1, "ROLE_CUSTOMER", "Customer", none, none⟩ false
      = .error (.validationError
          "The role with code ROLE_CUSTOMER is reserved and cannot be deleted.")
    ∧ prevent_deletion_of_reserved_role ⟨1, "ROLE_CUSTOMER", "Customer", none, none⟩
      = .error (.validationError
          "The role with code ROLE_CUSTOMER is reserved and cannot be deleted.")
    ∧ Role.permanently_delete [⟨1, "ROLE_CUSTOMER", "Customer", none, none⟩]
        ⟨1, "ROLE_CUSTOMER", "Customer", none, none⟩
      = .error (.validationError
          "The role with code ROLE_CUSTOMER is reserved and cannot be deleted.") :=
  c4_reserved_deletion_blocked 0 [⟨1, "ROLE_CUSTOMER", "Customer", none, none⟩]
    ⟨1, "ROLE_CUSTOMER", "Customer", none, none⟩ false (by decide)

/-- The table the seeding routine produces from an empty Role table. -/
def seededDb : List RoleR :=
  [⟨1, "ROLE_WAREHOUSE_MANAGER", "Warehouse Manager", none, none⟩,
   ⟨2, "ROLE_SELLER", "Seller", none, none⟩,
   ⟨3, "ROLE_CUSTOMER", "Customer", none, none⟩]

theorem ensure_from_empty : ensure_roles_exist [] = .ok seededDb := rfl

theorem ensure_seeded_fixed : ensure_roles_exist seededDb = .ok seededDb := rfl

/-- C6: the post-migration seeding is idempotent: any positive number of runs
from an empty table yields the same table, with exactly one Role per reserved
(code, name) pair and no duplicate codes. -/
theorem c6_seeding_idempotent (n : Nat) :
    ensureIter (n + 1) [] = .ok seededDb
    ∧ (∀ p ∈ RESERVED_ROLES,
        (seededDb.filter fun r => r.code == p.1 && r.name == p.2).length = 1)
    ∧ (seededDb.map fun r => r.code).Nodup := by
  refine ⟨?_, by decide, by decide⟩
  have hfix : ∀ m, ensureIter m seededDb = .ok seededDb := by
    intro m
    induction m with
    | zero => rfl
    | succ k ih =>
      show (ensure_roles_exist seededDb).bind (ensureIter k) = .ok seededDb
      rw [ensure_seeded_fixed]
      exact ih
  show (ensure_roles_exist []).bind (ensureIter n) = .ok seededDb
  rw [ensure_from_empty]
  exact hfix n

/-- C10: without the hard flag, delete only soft-deletes — the row stays
physically present with the timestamp set — and physical removal happens
exactly on the hard path; in particular a successful default delete of a
non-reserved Role keeps the row. -/
theorem c10_default_delete_is_soft (now : Nat) (db : List SDRow) (self : SDRow)
    (hself : self ∈ db) (hnd : self.deleted = none)
    (rdb : List RoleR) (rself orig : RoleR)
    (hmem : rdb.filter (fun r => r.pk = rself.pk) = [orig])
    (hcode : orig.code = rself.code)
    (hnres : rself.code ∉ reservedCodes) (hrd : rself.deleted = none) :
    ((SoftDeleteModel.delete now db self false).1
        = SDRow.save db { self with deleted := some now }
     ∧ ∃ r ∈ (SoftDeleteModel.delete now db self false).1,
         r.uuid = self.uuid ∧ r.deleted = some now)
    ∧ (SoftDeleteModel.delete now db self true).1
        = db.filter (fun r => r.uuid ≠ self.uuid)
    ∧ ∃ rdb2, Role.delete now rdb rself false = .ok rdb2
        ∧ ∃ r ∈ rdb2, r.pk = rself.pk ∧ r.deleted = some now := by
  have hA : SoftDeleteModel.delete now db self false
      = (SDRow.save db { self with deleted := some now },
         { self with deleted := some now }) := by
    unfold SoftDeleteModel.delete SoftDeleteModel.mark_deleted
    simp [hnd]
  have hmemsave : ({ self with deleted := some now } : SDRow)
      ∈ SDRow.save db { self with deleted := some now } := by
    unfold SDRow.save
    have hany : (db.any fun r =>
        r.uuid = ({ self with deleted := some now } : SDRow).uuid) = true := by
      simp only [List.any_eq_true]
      exact ⟨self, hself, by simp⟩
    rw [hany]
    simp only [if_true]
    exact List.mem_map.mpr ⟨self, hself, by simp⟩
  have hres_false : Role.is_reserved rself = false := by
    unfold Role.is_reserved
    simpa [List.elem_iff] using hnres
  have hchkdel : Role.check_reserved_deletion rself = .ok () := by
    unfold Role.check_reserved_deletion
    rw [hres_false]
    rfl
  have horigmem : orig ∈ rdb ∧ orig.pk = rself.pk := by
    have hsing : orig ∈ rdb.filter (fun r => r.pk = rself.pk) := by
      rw [hmem]
      exact List.mem_singleton_self _
    have h2 := List.mem_filter.mp hsing
    exact ⟨h2.1, by simpa using h2.2⟩
  have hget : Role.objects_get_pk rdb rself.pk = .ok orig := by
    unfold Role.objects_get_pk
    rw [hmem]
  have hget2 : Role.objects_get_pk rdb
      ({ rself with deleted := some now } : RoleR).pk = .ok orig := hget
  have hchk2 : Role.check_reserved_code_change rdb
      { rself with deleted := some now } = .ok () := by
    unfold Role.check_reserved_code_change
    rw [hget2]
    simp [hcode]
  have hsave : Role.save rdb { rself with deleted := some now }
      = .ok (roleUpsert rdb { rself with deleted := some now }) := by
    unfold Role.save
    rw [hchk2]
    rfl
  have hupmem : ({ rself with deleted := some now } : RoleR)
      ∈ roleUpsert rdb { rself with deleted := some now } := by
    unfold roleUpsert
    have hany : (rdb.any fun r =>
        r.pk = ({ rself with deleted := some now } : RoleR).pk) = true := by
      simp only [List.any_eq_true]
      exact ⟨orig, horigmem.1, by simp [horigmem.2]⟩
    rw [hany]
    simp only [if_true]
    exact List.mem_map.mpr ⟨orig, horigmem.1, by simp [horigmem.2]⟩
  have hdel : Role.delete now rdb rself false
      = .ok (roleUpsert rdb { rself with deleted := some now }) := by
    unfold Role.delete
    rw [hchkdel]
    show Role.softdelete_dispatch now rdb rself false = _
    unfold Role.softdelete_dispatch Role.mark_deleted
    simp only [Bool.false_eq_true, if_false, hrd, if_pos]
    exact hsave
  refine ⟨⟨?_, ?_⟩, ?_, ?_⟩
  · rw [hA]
  · rw [hA]
    exact ⟨{ self with deleted := some now }, hmemsave, rfl, rfl⟩
  · rfl
  · exact ⟨roleUpsert rdb { rself with deleted := some now }, hdel,
      { rself with deleted := some now }, hupmem, rfl, rfl⟩

/-- Witness for C10: soft-deleting the one row of a table keeps it physically
present with the timestamp set, and so does the default delete of the
non-reserved Role "x". -/
theorem c10_default_delete_is_soft_witness :
    ((SoftDeleteModel.delete 7 [⟨0, none⟩] ⟨0, none⟩ false).1
        = SDRow.save [⟨0, none⟩] ⟨0, some 7⟩
     ∧ ∃ r ∈ (SoftDeleteModel.delete 7 [⟨0, none⟩] ⟨0, none⟩ false).1,
         r.uuid = 0 ∧ r.deleted = some 7)
    ∧ (SoftDeleteModel.delete 7 [⟨0, none⟩] ⟨0, none⟩ true).1
        = [⟨0, none⟩].filter (fun r => r.uuid ≠ 0)
    ∧ ∃ rdb2, Role.delete 7 [⟨1, "x", "X", none, none⟩]
          ⟨1, "x", "X", none, none⟩ false = .ok rdb2
        ∧ ∃ r ∈ rdb2, r.pk = 1 ∧ r.deleted = some 7 :=
  c10_default_delete_is_soft 7 [⟨0, none⟩] ⟨0, none⟩ (by decide) rfl
    [⟨1, "x", "X", none, none⟩] ⟨1, "x", "X", none, none⟩
    ⟨1, "x", "X", none, none⟩ (by decide) rfl (by decide) rfl

end EverInit
